import Mathlib

/-!
LaunchNavigator iOS shim (`www/ios/launchnavigator.js`).

A shallow embedding of the JavaScript module and the properties of its
argument normalisation and bridge dispatch.

The module is plain (non-strict) JavaScript.  Its functions read and write
properties of the values they are given, throw, and call `cordova.exec`.
The embedding keeps those three effects explicit:

* JavaScript values are the inductive type `JSVal`;
* a call returns an outcome: the list of `cordova.exec` calls it made, in
  order, whether it threw, and (for the navigate functions) the options
  object as the call left it;
* the names the module reads but never binds (`ln.v3.APP`,
  `ln.v3.TRANSPORT_MODE`, the free identifier `start`) are the fields of an
  environment `Env`.
-/

set_option autoImplicit false
set_option linter.unusedVariables false

namespace LaunchNavigator

/-! ## JavaScript values -/

/-- A JavaScript Number, identified by what `ToString` prints for it
(ECMAScript 5.1, 9.8.1): a finite non-zero number is the shortest decimal
`s * 10 ^ (n - k)` that denotes it, where `k` is the number of decimal digits
of `s` (so `s` has no trailing zero).  The literal `50.1` is
`finite false 501 2`; the literal `-4.0` is the number -4, `finite true 4 1`.
The module does no arithmetic: it only converts numbers to strings. -/
inductive JSNum where
  | nan
  | infinity (negative : Bool)
  | zero (negative : Bool)
  | finite (negative : Bool) (s : Nat) (n : Int)
deriving DecidableEq, Repr

/-- What kind of object a value is: an object literal, an array (its elements
are the properties "0", "1", ... below `length`), or a function (with an
identity and its source text). -/
inductive ObjKind where
  | plain
  | array (length : Nat)
  | function (id : Nat) (source : String)
deriving DecidableEq, Repr

/-- JavaScript values.  Objects carry their own properties in insertion order;
their prototype is the standard one of their kind, and they have no accessor
properties and do not override `toString` or `valueOf`.  Strings consist of
characters of the Basic Multilingual Plane, so that a character is one UTF-16
unit and indexing by character is JavaScript's indexing. -/
inductive JSVal where
  | undefined
  | null
  | bool (b : Bool)
  | num (x : JSNum)
  | str (s : String)
  | object (kind : ObjKind) (props : List (String × JSVal))

namespace JSVal

/-- The array literal `[x0, x1, ...]`. -/
def arrayOf (elements : List JSVal) : JSVal :=
  .object (.array elements.length) (elements.enum.map fun e => (toString e.1, e.2))

/-- The object literal with the given properties. -/
def literal (props : List (String × JSVal)) : JSVal := .object .plain props

/-- Whether the value is an object (of any kind), so that it holds the
properties assigned to it. -/
def isObject : JSVal → Bool
  | .object _ _ => true
  | _ => false

end JSVal

open JSVal

/-- ToBoolean: `undefined`, `null`, `false`, `NaN`, the zeros and the empty
string are falsy, every other value is truthy. -/
def truthy : JSVal → Bool
  | .undefined => false
  | .null => false
  | .bool b => b
  | .num .nan => false
  | .num (.zero _) => false
  | .num _ => true
  | .str s => s ≠ ""
  | .object _ _ => true

/-- The `typeof` operator. -/
def typeof : JSVal → String
  | .undefined => "undefined"
  | .null => "object"
  | .bool _ => "boolean"
  | .num _ => "number"
  | .str _ => "string"
  | .object (.function _ _) _ => "function"
  | .object _ _ => "object"

/-- A run of `count` zero digits. -/
def zeros (count : Nat) : List Char := List.replicate count '0'

/-- The exponent suffix of the scientific form: `e`, the sign of `n - 1` and
its magnitude. -/
def exponentPart (n : Int) : List Char :=
  'e' :: (if n - 1 < 0 then '-' else '+') :: Nat.toDigits 10 (n - 1).natAbs

/-- Steps 6 to 10 of Number `ToString` for the positive number
`s * 10 ^ (n - k)`. -/
def finiteToString (s : Nat) (n : Int) : List Char :=
  let digits := Nat.toDigits 10 s
  let k : Int := digits.length
  if k ≤ n ∧ n ≤ 21 then digits ++ zeros (n - k).toNat
  else if 0 < n ∧ n ≤ 21 then digits.take n.toNat ++ '.' :: digits.drop n.toNat
  else if -6 < n ∧ n ≤ 0 then '0' :: '.' :: zeros (-n).toNat ++ digits
  else if k = 1 then digits ++ exponentPart n
  else digits.take 1 ++ '.' :: digits.drop 1 ++ exponentPart n

/-- Number `ToString`. -/
def numberToString : JSNum → String
  | .nan => "NaN"
  | .infinity negative => if negative then "-Infinity" else "Infinity"
  | .zero _ => "0"
  | .finite negative s n =>
    String.mk ((if negative then ['-'] else []) ++ finiteToString s n)

mutual
/-- The string a value contributes to a concatenation `value + ","`
(ToPrimitive followed by ToString): arrays join their elements with commas,
object literals print as `[object Object]`, functions as their source. -/
def toStr : JSVal → String
  | .undefined => "undefined"
  | .null => "null"
  | .bool b => if b then "true" else "false"
  | .num x => numberToString x
  | .str s => s
  | .object .plain _ => "[object Object]"
  | .object (.array length) props =>
    let texts := elementTexts props
    ",".intercalate ((List.range length).map fun i => (texts.lookup (toString i)).getD "")
  | .object (.function _ source) _ => source
/-- The text of each property as an array element: `undefined` and `null`
elements (and holes) join as the empty string. -/
def elementTexts : List (String × JSVal) → List (String × String)
  | [] => []
  | (key, .undefined) :: rest => (key, "") :: elementTexts rest
  | (key, .null) :: rest => (key, "") :: elementTexts rest
  | (key, value) :: rest => (key, toStr value) :: elementTexts rest
end

/-! ## Properties -/

/-- The properties every object inherits from `Object.prototype`: the
functions of ECMAScript 5.1, 15.2.4, the legacy accessor helpers
`__defineGetter__`, `__defineSetter__`, `__lookupGetter__`, `__lookupSetter__`,
and the accessor `__proto__`, which JavaScript engines provide as well. -/
def objectPrototypeNames : List String :=
  ["constructor", "toString", "toLocaleString", "valueOf", "hasOwnProperty",
   "isPrototypeOf", "propertyIsEnumerable", "__defineGetter__", "__defineSetter__",
   "__lookupGetter__", "__lookupSetter__", "__proto__"]

/-- A built-in function of the given name; only its being a function matters. -/
def builtin (name : String) : JSVal :=
  .object (.function 0 ("function " ++ name ++ "() [native code]")) []

/-- The value found on the prototype chain for `key` when the value itself has
no such property: a built-in function for the function-valued names, the
prototype object for `__proto__`, and `undefined` for every other name.  Only
`Object.prototype` is modelled.  The module reads a property under a computed
name only from the table `ln.v3.APP`, an object literal; the names it reads
elsewhere ("app", "start", "0", "1", ...) are none of the built-in members of
arrays, strings or functions. -/
def inherited (key : String) : JSVal :=
  if key ∈ objectPrototypeNames then
    if key = "__proto__" then .object .plain [] else builtin key
  else .undefined

/-- The character of a string primitive at the index written `key`. -/
def charAt (key : String) : List Char → Nat → Option Char
  | [], _ => none
  | c :: rest, i => if key = toString i then some c else charAt key rest (i + 1)

/-- Property read `base[key]` on a value that is neither `undefined` nor `null`
(the module reads no property of such a value except from its tables, see
`readTable`; on them this function answers `undefined`). -/
def getProp : JSVal → String → JSVal
  | .undefined, _ => .undefined
  | .null, _ => .undefined
  | .object _ props, key =>
    match props.lookup key with
    | some value => value
    | none => inherited key
  | .str s, key =>
    match charAt key s.data 0 with
    | some c => .str (String.singleton c)
    | none => inherited key
  | _, key => inherited key

/-- Own properties after the assignment `key = value`: an existing property is
overwritten in place, a new one is added last. -/
def setOwn (key : String) (value : JSVal) : List (String × JSVal) → List (String × JSVal)
  | [] => [(key, value)]
  | (k, v) :: rest =>
    if k = key then (key, value) :: rest else (k, v) :: setOwn key value rest

/-- Property assignment `base[key] = value` for a name that is not an array
index.  On a primitive the assignment is silently dropped (the module is not
in strict mode). -/
def setProp : JSVal → String → JSVal → JSVal
  | .object kind props, key, value => .object kind (setOwn key value props)
  | base, _, _ => base

/-- What a call threw. -/
inductive Thrown where
  | error (message : String)
  | typeError
deriving DecidableEq, Repr

/-- A constant table of the module (`ln.v3.APP`, `ln.v3.TRANSPORT_MODE`): the
own properties of an object literal, or `none` when the name was never
assigned, so that it reads as `undefined`. -/
abbrev Table := Option (List (String × JSVal))

/-- The value of `table[key]` when the table is defined: an own property, or
what an object literal inherits. -/
def tableValue (table : Table) (key : String) : JSVal :=
  match table with
  | some props => getProp (literal props) key
  | none => .undefined

/-- The property read `table[key]`: reading a property of `undefined` throws a
TypeError. -/
def readTable (table : Table) (key : String) : Except Thrown JSVal :=
  match table with
  | some props => .ok (getProp (literal props) key)
  | none => .error .typeError

/-- The comparison `value == word` for a string `word` that is not a numeric
literal (the module compares with "undefined" and "object"): a string equals
it when it is the same string, an object when it prints as it, and no other
value does (ToNumber of `word` is NaN). -/
def looseEqualsWord (value : JSVal) (word : String) : Bool :=
  match value with
  | .str s => s = word
  | .object kind props => toStr (.object kind props) = word
  | _ => false

/-! ## The bridge and the environment -/

/-- One call `cordova.exec(success, error, service, action, args)`. -/
structure ExecCall where
  successCallback : JSVal
  errorCallback : JSVal
  service : String
  action : String
  args : List JSVal

/-- What the module reads without binding it.  `APP` and `TRANSPORT_MODE` are
the values of `ln.v3.APP` and `ln.v3.TRANSPORT_MODE` when a function runs;
`start` is the value of the free identifier `start` in `typeof(start)`
(`undefined` when no such global exists). -/
structure Env where
  APP : Table
  TRANSPORT_MODE : Table
  start : JSVal

/-- The environment the module itself sets up: `var ln = {}; ln.v3 = {};` and
no later assignment to `ln.v3.APP` or `ln.v3.TRANSPORT_MODE`; no global named
`start`. -/
def moduleEnv : Env :=
  { APP := none, TRANSPORT_MODE := none, start := .undefined }

/-- Every default the call may need can be read: an option the caller leaves
unset has its table defined.  It holds for every options value once both tables
are defined, and in any environment when the caller sets both `app` and
`transportMode`. -/
def defaultsReadable (env : Env) (options : JSVal) : Bool :=
  (truthy (getProp options "app") || env.APP.isSome) &&
    (truthy (getProp options "transportMode") || env.TRANSPORT_MODE.isSome)

/-- What the `options` parameter is documented to be: an object, or left out
(any falsy value is replaced by a fresh object). -/
def isOptions (options : JSVal) : Bool :=
  options.isObject || !truthy options

/-- An environment in which a caller has supplied the two tables, with
`DRIVING` the documented "driving". -/
def sampleEnv : Env :=
  { APP := some [("APPLE_MAPS", .str "apple_maps"), ("GOOGLE_MAPS", .str "google_maps")]
    TRANSPORT_MODE := some [("DRIVING", .str "driving")]
    start := .undefined }

/-- Outcome of a call: the bridge calls it made, in order, and what it threw
(`none` when it returned). -/
structure Outcome where
  calls : List ExecCall
  thrown : Option Thrown

/-- Outcome of a navigate call: as `Outcome`, with the options object the
function worked on as the call left it (the caller's own object when one was
passed). -/
structure NavOutcome extends Outcome where
  options : JSVal

/-- The call `cordova.exec(success, error, 'LaunchNavigator', action, args)`. -/
def exec (success error : JSVal) (action : String) (args : List JSVal) : ExecCall :=
  { successCallback := success, errorCallback := error, service := "LaunchNavigator",
    action := action, args := args }

/-! ## The module -/

/-- Message of the error thrown at line 72. -/
def destinationRequired : String :=
  "destination must be given as an \x7barray\x7d of lat/lon coordinates or a placename \x7bstring\x7d"

/-- Tail of the message of the error thrown at line 117. -/
def notSupported : String :=
  " is not a supported navigation app on iOS - please use a ln.APP constant"

/-- The options object a navigate function works on (line 69 and line 166,
`options = options ? options : {}`). -/
def optionsObject (options : JSVal) : JSVal :=
  if truthy options then options else literal []

/-- Source lines 68-108, `ln.v3.navigate = function(destination, options)`. -/
def ln.v3.navigate (env : Env) (destination options : JSVal) : NavOutcome :=
  -- options = options ? options : {};
  let options := optionsObject options
  -- if(!destination) throw new Error(...);
  if !truthy destination then
    { calls := [], thrown := some (.error destinationRequired), options := options }
  else
  -- options.app = options.app ? options.app : ln.v3.APP.APPLE_MAPS;
  match (if truthy (getProp options "app") then .ok (getProp options "app")
         else readTable env.APP "APPLE_MAPS") with
  | .error t => { calls := [], thrown := some t, options := options }
  | .ok app =>
  let options := setProp options "app" app
  -- options.transportMode = options.transportMode ? options.transportMode : ln.v3.TRANSPORT_MODE.DRIVING;
  match (if truthy (getProp options "transportMode") then .ok (getProp options "transportMode")
         else readTable env.TRANSPORT_MODE "DRIVING") with
  | .error t => { calls := [], thrown := some t, options := options }
  | .ok mode =>
  let options := setProp options "transportMode" mode
  -- options.enableDebug = options.enableDebug ? options.enableDebug : false;
  let options := setProp options "enableDebug"
    (if truthy (getProp options "enableDebug") then getProp options "enableDebug" else .bool false)
  -- if(typeof(destination) == "object"){ ... }else{ ... }
  let classified : JSVal × JSVal :=
    if typeof destination = "object" then
      (.str (toStr (getProp destination "0") ++ "," ++ toStr (getProp destination "1")),
        setProp options "destType" (.str "coords"))
    else
      (destination, setProp options "destType" (.str "name"))
  let destination := classified.1
  let options := classified.2
  -- if(!options.start){ ... }else if(typeof(start) == "object"){ ... }else{ ... }
  let options :=
    if !truthy (getProp options "start") then
      setProp options "startType" (.str "none")
    else if typeof env.start = "object" then
      setProp
        (setProp options "start"
          (.str (toStr (getProp (getProp options "start") "0") ++ "," ++
            toStr (getProp (getProp options "start") "1"))))
        "startType" (.str "coords")
    else
      setProp options "startType" (.str "name")
  -- cordova.exec(options.successCallback, options.errorCallback, 'LaunchNavigator', 'navigate', [...]);
  { calls := [exec (getProp options "successCallback") (getProp options "errorCallback") "navigate"
      [destination,
       getProp options "destType",
       getProp options "destinationName",
       getProp options "start",
       getProp options "startType",
       getProp options "startName",
       getProp options "app",
       getProp options "transportMode",
       getProp options "enableDebug"]],
    thrown := none, options := options }

/-- Source lines 116-120, `ln.v3.isAppAvailable = function(appName, success, error)`. -/
def ln.v3.isAppAvailable (env : Env) (appName success error : JSVal) : Outcome :=
  -- if(!appName || !ln.v3.APP[appName]) throw new Error(appName + " is not ...");
  if !truthy appName then
    { calls := [], thrown := some (.error (toStr appName ++ notSupported)) }
  else
  match readTable env.APP (toStr appName) with
  | .error t => { calls := [], thrown := some t }
  | .ok entry =>
  if !truthy entry then
    { calls := [], thrown := some (.error (toStr appName ++ notSupported)) }
  else
  -- cordova.exec(success, error, 'LaunchNavigator', 'isAppAvailable', [appName]);
  { calls := [exec success error "isAppAvailable" [appName]], thrown := none }

/-- Source lines 127-129, `ln.v3.availableApps = function(success, error)`. -/
def ln.v3.availableApps (env : Env) (success error : JSVal) : Outcome :=
  { calls := [exec success error "availableApps" []], thrown := none }

/-- Source lines 163-187,
`ln.v2.navigate = function(destination, start, successCallback, errorCallback, options)`. -/
def ln.v2.navigate (env : Env)
    (destination start successCallback errorCallback options : JSVal) : NavOutcome :=
  -- options = options ? options : {};
  let options := optionsObject options
  -- options.preferGoogleMaps = options.preferGoogleMaps ? options.preferGoogleMaps : false;
  let options := setProp options "preferGoogleMaps"
    (if truthy (getProp options "preferGoogleMaps") then getProp options "preferGoogleMaps"
     else .bool false)
  -- options.enableDebug = options.enableDebug ? options.enableDebug : false;
  let options := setProp options "enableDebug"
    (if truthy (getProp options "enableDebug") then getProp options "enableDebug" else .bool false)
  -- cordova.exec(options.successCallback, options.errorCallback, 'LaunchNavigator', 'navigate', [...]);
  let direct := exec (getProp options "successCallback") (getProp options "errorCallback") "navigate"
    [destination,
     getProp options "destType",
     getProp options "app",
     getProp options "start",
     getProp options "startType",
     getProp options "transportMode",
     getProp options "enableDebug"]
  -- ln.v3.navigate(destination, { app: ..., start: ..., transportMode: ..., enableDebug: ... });
  match readTable env.APP
      (if truthy (getProp options "preferGoogleMaps") then "GOOGLE_MAPS" else "APPLE_MAPS") with
  | .error t => { calls := [direct], thrown := some t, options := options }
  | .ok app =>
  let inner := ln.v3.navigate env destination
    (literal [("app", app),
              ("start", getProp options "start"),
              ("transportMode", getProp options "transportMode"),
              ("enableDebug", getProp options "enableDebug")])
  { calls := direct :: inner.calls, thrown := inner.thrown, options := options }

/-- Source lines 196-198, `ln.v2.isGoogleMapsAvailable = function(successCallback)`. -/
def ln.v2.isGoogleMapsAvailable (env : Env) (successCallback : JSVal) : Outcome :=
  -- ln.v3.isAppAvailable(ln.v3.APP.GOOGLE_MAPS, successCallback);
  match readTable env.APP "GOOGLE_MAPS" with
  | .error t => { calls := [], thrown := some t }
  | .ok app => ln.v3.isAppAvailable env app successCallback .undefined

/-- The value of `arguments[i]`: `undefined` past the end. -/
def argument (arguments : List JSVal) (i : Nat) : JSVal :=
  arguments.getD i .undefined

/-- The operator `a || b`. -/
def orElse (a b : JSVal) : JSVal := if truthy a then a else b

/-- The value tested at line 210 after `arguments.length >= 2 &&`:
`typeof(arguments[1] == "undefined" || typeof(arguments[1] == "object"))`,
with the brackets as the source has them. -/
def shapeTest (arguments : List JSVal) : JSVal :=
  .str (typeof (orElse (.bool (looseEqualsWord (argument arguments 1) "undefined"))
    (.str (typeof (.bool (looseEqualsWord (argument arguments 1) "object"))))))

/-- Source lines 209-215, `ln.navigate = function()`, applied to its argument
list. -/
def ln.navigate (env : Env) (arguments : List JSVal) : NavOutcome :=
  if arguments.length ≥ 2 ∧ truthy (shapeTest arguments) = true then
    -- ln.v3.navigate.apply(this, arguments);
    ln.v3.navigate env (argument arguments 0) (argument arguments 1)
  else
    -- ln.v2.navigate.apply(this, arguments);
    ln.v2.navigate env (argument arguments 0) (argument arguments 1) (argument arguments 2)
      (argument arguments 3) (argument arguments 4)

/-- Source line 220, `ln.isGoogleMapsAvailable = ln.v2.isGoogleMapsAvailable`. -/
def ln.isGoogleMapsAvailable : Env → JSVal → Outcome := ln.v2.isGoogleMapsAvailable

/-- Source line 225, `ln.isAppAvailable = ln.v3.isAppAvailable`. -/
def ln.isAppAvailable : Env → JSVal → JSVal → JSVal → Outcome := ln.v3.isAppAvailable

/-- Source line 226, `ln.availableApps = ln.v3.availableApps`. -/
def ln.availableApps : Env → JSVal → JSVal → Outcome := ln.v3.availableApps

/-! ## What a navigate request dispatches -/

/-- The selected app: `options.app` when set, the table's `APPLE_MAPS`
otherwise. -/
def selectedApp (env : Env) (options : JSVal) : JSVal :=
  if truthy (getProp options "app") then getProp options "app"
  else tableValue env.APP "APPLE_MAPS"

/-- The transport mode: `options.transportMode` when set, the table's
`DRIVING` otherwise. -/
def selectedMode (env : Env) (options : JSVal) : JSVal :=
  if truthy (getProp options "transportMode") then getProp options "transportMode"
  else tableValue env.TRANSPORT_MODE "DRIVING"

/-- The debug flag: `options.enableDebug` when set, `false` otherwise. -/
def debugFlag (options : JSVal) : JSVal :=
  if truthy (getProp options "enableDebug") then getProp options "enableDebug" else .bool false

/-- The wire form of a coordinate pair: element 0, a comma, element 1. -/
def joinPair (location : JSVal) : JSVal :=
  .str (toStr (getProp location "0") ++ "," ++ toStr (getProp location "1"))

/-- The destination value dispatched: an object is joined, anything else
passes through. -/
def destinationValue (destination : JSVal) : JSVal :=
  if typeof destination = "object" then joinPair destination else destination

/-- The destination type tag dispatched. -/
def destinationTag (destination : JSVal) : String :=
  if typeof destination = "object" then "coords" else "name"

/-- The start value dispatched: `options.start` as given, joined only when it
is set and the free identifier `start` names an object. -/
def startValue (env : Env) (options : JSVal) : JSVal :=
  if truthy (getProp options "start") = true ∧ typeof env.start = "object" then
    joinPair (getProp options "start")
  else getProp options "start"

/-- The start type tag dispatched. -/
def startTag (env : Env) (options : JSVal) : String :=
  if truthy (getProp options "start") = false then "none"
  else if typeof env.start = "object" then "coords" else "name"

/-- The app the legacy function ends up dispatching: the table constant it
picks by `options.preferGoogleMaps`, which `ln.v3.navigate` keeps when it is
truthy and replaces by the table constant `APPLE_MAPS` otherwise. -/
def legacyApp (env : Env) (options : JSVal) : JSVal :=
  if truthy (tableValue env.APP
      (if truthy (getProp options "preferGoogleMaps") then "GOOGLE_MAPS" else "APPLE_MAPS")) then
    tableValue env.APP
      (if truthy (getProp options "preferGoogleMaps") then "GOOGLE_MAPS" else "APPLE_MAPS")
  else tableValue env.APP "APPLE_MAPS"

/-! ## Example inputs -/

/-- The coordinate pair `[50.1, -4.0]` of the docstrings. -/
def exampleCoords : JSVal :=
  arrayOf [.num (.finite false 501 2), .num (.finite true 4 1)]

/-- The callback `onSuccess`. -/
def onSuccess : JSVal := .object (.function 1 "function onSuccess() ...") []

/-- The callback `onError`. -/
def onError : JSVal := .object (.function 2 "function onError(message) ...") []

/-- The options `{app: "apple_maps", transportMode: "driving"}`, which need
no table. -/
def explicitOptions : JSVal :=
  literal [("app", .str "apple_maps"), ("transportMode", .str "driving")]

/-- The options `{app: "apple_maps", transportMode: "driving", start: [50.1, -4.0]}`. -/
def coordsStartOptions : JSVal :=
  literal [("app", .str "apple_maps"), ("transportMode", .str "driving"),
    ("start", exampleCoords)]

/-- The options `{successCallback: onSuccess, errorCallback: onError,
destinationName: "Bob", start: "Paris", startName: "Home", app: "google_maps",
transportMode: "walking", enableDebug: true}`. -/
def fullOptions : JSVal :=
  literal [("successCallback", onSuccess), ("errorCallback", onError),
    ("destinationName", .str "Bob"), ("start", .str "Paris"), ("startName", .str "Home"),
    ("app", .str "google_maps"), ("transportMode", .str "walking"),
    ("enableDebug", .bool true)]

/-- The legacy options `{preferGoogleMaps: true}`. -/
def preferGoogleOptions : JSVal := literal [("preferGoogleMaps", .bool true)]

/-- The current-version options `{app: "google_maps", start: "Paris",
successCallback: onSuccess, errorCallback: onError}`, "google_maps" being the
constant `GOOGLE_MAPS` of `sampleEnv`. -/
def googleRequest : JSVal :=
  literal [("app", .str "google_maps"), ("start", .str "Paris"),
    ("successCallback", onSuccess), ("errorCallback", onError)]

/-- The legacy options `{transportMode: "walking"}`. -/
def walkingOptions : JSVal := literal [("transportMode", .str "walking")]

/-- The options `{app: "apple_maps", transportMode: "driving", start: "Paris",
note: "keep"}`, `note` being a field the module does not know. -/
def annotatedOptions : JSVal :=
  literal [("app", .str "apple_maps"), ("transportMode", .str "driving"),
    ("start", .str "Paris"), ("note", .str "keep")]

/-- An environment whose app constants are their own property names. -/
def namedEnv : Env :=
  { APP := some [("APPLE_MAPS", .str "APPLE_MAPS"), ("GOOGLE_MAPS", .str "GOOGLE_MAPS")]
    TRANSPORT_MODE := some [("DRIVING", .str "driving")]
    start := .undefined }

/-! ## Lemmas on properties -/

/-- After an assignment the property is found with the assigned value. -/
theorem lookup_setOwn_same (key : String) (value : JSVal) (props : List (String × JSVal)) :
    (setOwn key value props).lookup key = some value := by
  induction props with
  | nil => simp [setOwn, List.lookup]
  | cons head rest ih =>
    obtain ⟨k, v⟩ := head
    by_cases h : k = key
    · simp [setOwn, h, List.lookup]
    · have h2 : (key == k) = false := by simpa using fun e => h e.symm
      simp [setOwn, h, List.lookup, h2, ih]

/-- An assignment leaves every other property as it was. -/
theorem lookup_setOwn_ne (key other : String) (value : JSVal) (props : List (String × JSVal))
    (h : other ≠ key) : (setOwn key value props).lookup other = props.lookup other := by
  induction props with
  | nil =>
    have h2 : (other == key) = false := by simpa using h
    simp [setOwn, List.lookup, h2]
  | cons head rest ih =>
    obtain ⟨k, v⟩ := head
    by_cases hk : k = key
    · subst hk
      have h2 : (other == k) = false := by simpa using h
      simp [setOwn, List.lookup, h2]
    · by_cases ho : other = k
      · subst ho
        simp [setOwn, hk, List.lookup]
      · have h2 : (other == k) = false := by simpa using ho
        simp [setOwn, hk, List.lookup, h2, ih]

/-- An assignment does not change whether the value is an object. -/
theorem isObject_setProp (base : JSVal) (key : String) (value : JSVal) :
    (setProp base key value).isObject = base.isObject := by
  cases base <;> rfl

/-- Reading back the property just assigned on an object gives the value. -/
theorem getProp_setProp_same (base : JSVal) (key : String) (value : JSVal)
    (h : base.isObject = true) : getProp (setProp base key value) key = value := by
  cases base <;> simp [JSVal.isObject] at h
  simp [setProp, getProp, lookup_setOwn_same]

/-- Reading another property after an assignment gives what it gave before. -/
theorem getProp_setProp_ne (base : JSVal) (key other : String) (value : JSVal)
    (h : other ≠ key) : getProp (setProp base key value) other = getProp base other := by
  cases base <;> simp [setProp, getProp, lookup_setOwn_ne _ _ _ _ h]

/-- After line 69 the options are an object. -/
theorem isObject_optionsObject (options : JSVal) (h : isOptions options = true) :
    (optionsObject options).isObject = true := by
  unfold optionsObject
  by_cases ht : truthy options = true
  · cases options <;> simp_all [isOptions, JSVal.isObject]
  · simp [ht, literal, JSVal.isObject]

/-- Line 69 changes no property the module reads: absent options read as
`undefined` everywhere, like the fresh object that replaces them. -/
theorem getProp_optionsObject (options : JSVal) (key : String)
    (hk : key ∉ objectPrototypeNames) :
    getProp (optionsObject options) key = getProp options key := by
  unfold optionsObject
  by_cases ht : truthy options = true
  · simp [ht]
  · cases options <;> simp_all [truthy, literal, getProp, inherited, charAt, List.lookup]

/-- A two-element array is dispatched as its elements joined by a comma. -/
theorem destinationValue_pair (first second : JSVal) :
    destinationValue (arrayOf [first, second]) =
      .str (toStr first ++ "," ++ toStr second) := by
  have h0 : toString (0 : Nat) = "0" := rfl
  have h1 : toString (1 : Nat) = "1" := rfl
  simp [destinationValue, arrayOf, typeof, joinPair, getProp, List.enum, List.enumFrom,
    List.lookup, h0, h1]

/-- The whole dispatch of `ln.v3.navigate`: for a truthy destination and options
whose defaults can be read, the call returns having made the one bridge call
spelled out here. -/
theorem navigate_dispatch (env : Env) (destination options : JSVal)
    (hd : truthy destination = true) (ho : isOptions options = true)
    (hr : defaultsReadable env options = true) :
    (ln.v3.navigate env destination options).thrown = none ∧
    (ln.v3.navigate env destination options).calls =
      [exec (getProp options "successCallback") (getProp options "errorCallback") "navigate"
        [destinationValue destination, .str (destinationTag destination),
         getProp options "destinationName",
         startValue env options, .str (startTag env options),
         getProp options "startName",
         selectedApp env options, selectedMode env options, debugFlag options]] := by
  have hobj := isObject_optionsObject options ho
  have hp : ∀ key, key ∉ objectPrototypeNames →
      getProp (optionsObject options) key = getProp options key :=
    fun key hk => getProp_optionsObject options key hk
  have e1 := hp "app" (by decide)
  have e2 := hp "transportMode" (by decide)
  have e3 := hp "enableDebug" (by decide)
  have e4 := hp "start" (by decide)
  have e5 := hp "successCallback" (by decide)
  have e6 := hp "errorCallback" (by decide)
  have e7 := hp "destinationName" (by decide)
  have e8 := hp "startName" (by decide)
  simp only [defaultsReadable, selectedApp, selectedMode, debugFlag, startValue, startTag,
    ← e1, ← e2, ← e3, ← e4, ← e5, ← e6, ← e7, ← e8] at hr ⊢
  unfold ln.v3.navigate
  generalize optionsObject options = o at hobj hr ⊢
  simp only [Bool.and_eq_true, Bool.or_eq_true, Bool.not_eq_true'] at hr
  obtain ⟨ha, hm⟩ := hr
  have hA : (if truthy (getProp o "app") = true then Except.ok (getProp o "app")
      else readTable env.APP "APPLE_MAPS") =
      Except.ok (if truthy (getProp o "app") = true then getProp o "app"
        else tableValue env.APP "APPLE_MAPS") := by
    by_cases h : truthy (getProp o "app") = true
    · simp [h]
    · simp [h] at ha
      obtain ⟨props, hp⟩ := Option.isSome_iff_exists.mp ha
      simp [h, readTable, tableValue, hp]
  have hM : (if truthy (getProp o "transportMode") = true then
        Except.ok (getProp o "transportMode")
      else readTable env.TRANSPORT_MODE "DRIVING") =
      Except.ok (if truthy (getProp o "transportMode") = true then getProp o "transportMode"
        else tableValue env.TRANSPORT_MODE "DRIVING") := by
    by_cases h : truthy (getProp o "transportMode") = true
    · simp [h]
    · simp [h] at hm
      obtain ⟨props, hp⟩ := Option.isSome_iff_exists.mp hm
      simp [h, readTable, tableValue, hp]
  simp only [hd, Bool.not_true, Bool.false_eq_true, if_false, hA,
    getProp_setProp_ne _ "app" "transportMode" _ (by decide), hM]
  by_cases hobjd : typeof destination = "object" <;>
  by_cases hs : truthy (getProp o "start") = true <;>
  by_cases hg : typeof env.start = "object" <;>
  simp [hobjd, hs, hg, getProp_setProp_ne, getProp_setProp_same, isObject_setProp, hobj,
    destinationValue, destinationTag, joinPair]

/-- An identifier under which the table holds a truthy entry gets through: one
bridge call with the identifier alone. -/
theorem isAppAvailable_accepts_entry (env : Env) (appName success error : JSVal)
    (ha : truthy appName = true) (he : truthy (tableValue env.APP (toStr appName)) = true) :
    (ln.v3.isAppAvailable env appName success error).thrown = none ∧
    (ln.v3.isAppAvailable env appName success error).calls =
      [exec success error "isAppAvailable" [appName]] := by
  unfold ln.v3.isAppAvailable
  cases hn : env.APP with
  | none => simp [hn, tableValue, truthy] at he
  | some props =>
    have he2 : truthy (getProp (literal props) (toStr appName)) = true := by
      simpa [hn, tableValue] using he
    simp [ha, readTable, he2]

/-- When `ln.v3.isAppAvailable` throws: the identifier is falsy, or the app
table is missing, or the read `ln.v3.APP[appName]` (own and inherited
properties) gives nothing truthy.  The throw is the error of line 117, or the
TypeError of reading a missing table; no bridge call is made. -/
theorem isAppAvailable_rejects_without_entry (env : Env) (appName success error : JSVal)
    (h : truthy appName = false ∨ env.APP.isNone = true ∨
      truthy (tableValue env.APP (toStr appName)) = false) :
    (ln.v3.isAppAvailable env appName success error).thrown =
      some (if truthy appName = true ∧ env.APP.isNone = true then .typeError
        else .error (toStr appName ++ notSupported)) ∧
    (ln.v3.isAppAvailable env appName success error).calls = [] := by
  unfold ln.v3.isAppAvailable
  by_cases ha : truthy appName = true
  · cases hn : env.APP with
    | none => simp [ha, readTable]
    | some props =>
      have he : truthy (getProp (literal props) (toStr appName)) = false := by
        rcases h with h | h | h
        · simp [ha] at h
        · simp [hn] at h
        · simpa [hn, tableValue] using h
      simp [ha, readTable, he]
  · simp [ha]

/-- Whatever its arguments, `ln.v2.navigate` first calls the bridge itself
(line 170), with seven arguments. -/
theorem v2_navigate_calls_bridge_first (env : Env)
    (destination start successCallback errorCallback options : JSVal) :
    ∃ direct rest,
      (ln.v2.navigate env destination start successCallback errorCallback options).calls =
        direct :: rest ∧
      direct.action = "navigate" ∧ direct.args.length = 7 ∧
      direct.args[0]? = some destination := by
  unfold ln.v2.navigate
  cases env.APP with
  | none => exact ⟨_, [], rfl, rfl, rfl, rfl⟩
  | some props => exact ⟨_, _, rfl, rfl, rfl, rfl⟩

/-- The operator `typeof` never yields the empty string. -/
theorem typeof_ne_empty (value : JSVal) : typeof value ≠ "" := by
  cases value with
  | object kind props => cases kind <;> simp [typeof]
  | _ => simp [typeof]

/-- The value tested at line 210 is truthy for every argument list. -/
theorem truthy_shapeTest (arguments : List JSVal) : truthy (shapeTest arguments) = true := by
  simp [shapeTest, truthy, typeof_ne_empty]

/-- Defaulting the debug flag a second time changes nothing. -/
theorem truthy_debugFlag (options : JSVal) :
    (if truthy (debugFlag options) = true then debugFlag options else JSVal.bool false) =
      debugFlag options := by
  unfold debugFlag
  by_cases h : truthy (getProp options "enableDebug") = true
  · simp [h]
  · simp only [h, if_false]
    rfl

/-- A value defaulted to `false` is truthy exactly when it was. -/
theorem truthy_default_false (value : JSVal) :
    truthy (if truthy value = true then value else JSVal.bool false) = truthy value := by
  by_cases h : truthy value = true
  · simp [h]
  · simp only [h, if_false]
    simp [truthy]

/-- The whole dispatch of `ln.v2.navigate`: with the app table defined, the call
returns having made its own seven-element call and then the nine-element call
of `ln.v3.navigate`, both spelled out here. -/
theorem v2_navigate_dispatch (env : Env)
    (destination start successCallback errorCallback options : JSVal)
    (hd : truthy destination = true) (ho : isOptions options = true)
    (ha : env.APP.isSome = true)
    (hm : (truthy (getProp options "transportMode") || env.TRANSPORT_MODE.isSome) = true) :
    (ln.v2.navigate env destination start successCallback errorCallback options).thrown = none ∧
    (ln.v2.navigate env destination start successCallback errorCallback options).calls =
      [exec (getProp options "successCallback") (getProp options "errorCallback") "navigate"
        [destination, getProp options "destType", getProp options "app",
         getProp options "start", getProp options "startType",
         getProp options "transportMode", debugFlag options],
       exec .undefined .undefined "navigate"
        [destinationValue destination, .str (destinationTag destination), .undefined,
         startValue env options, .str (startTag env options), .undefined,
         legacyApp env options, selectedMode env options, debugFlag options]] := by
  have hobj := isObject_optionsObject options ho
  have hp : ∀ key, key ∉ objectPrototypeNames →
      getProp (optionsObject options) key = getProp options key :=
    fun key hk => getProp_optionsObject options key hk
  have e1 := hp "preferGoogleMaps" (by decide)
  have e2 := hp "transportMode" (by decide)
  have e3 := hp "enableDebug" (by decide)
  have e4 := hp "start" (by decide)
  have e5 := hp "successCallback" (by decide)
  have e6 := hp "errorCallback" (by decide)
  have e7 := hp "destType" (by decide)
  have e8 := hp "startType" (by decide)
  have e9 := hp "app" (by decide)
  obtain ⟨props, hprops⟩ := Option.isSome_iff_exists.mp ha
  simp only [legacyApp, selectedMode, debugFlag, startValue, startTag,
    ← e1, ← e2, ← e3, ← e4, ← e5, ← e6, ← e7, ← e8, ← e9] at hm ⊢
  unfold ln.v2.navigate
  generalize optionsObject options = o at hobj hm ⊢
  have hdbg := truthy_debugFlag o
  unfold debugFlag at hdbg
  obtain ⟨request, hrequest⟩ : ∃ r, r = literal [("app", getProp (literal props)
          (if truthy (getProp o "preferGoogleMaps") = true then "GOOGLE_MAPS" else "APPLE_MAPS")),
        ("start", getProp o "start"), ("transportMode", getProp o "transportMode"),
        ("enableDebug", if truthy (getProp o "enableDebug") = true then getProp o "enableDebug"
          else JSVal.bool false)] := ⟨_, rfl⟩
  have hO : isOptions request = true := by rw [hrequest]; rfl
  have hM : defaultsReadable env request = true := by
    rw [hrequest]
    simp [defaultsReadable, hprops, literal, getProp, List.lookup]
    simpa using hm
  obtain ⟨ht, hc⟩ := navigate_dispatch env destination request hd hO hM
  simp only [hprops, readTable, tableValue, getProp_setProp_ne, getProp_setProp_same,
    isObject_setProp, hobj, truthy_default_false, ne_eq, String.reduceEq, not_false_eq_true]
  rw [← hrequest]
  refine ⟨ht, ?_⟩
  have r1 : getProp request "successCallback" = .undefined := by rw [hrequest]; rfl
  have r2 : getProp request "errorCallback" = .undefined := by rw [hrequest]; rfl
  have r3 : getProp request "destinationName" = .undefined := by rw [hrequest]; rfl
  have r4 : getProp request "startName" = .undefined := by rw [hrequest]; rfl
  have r5 : getProp request "start" = getProp o "start" := by rw [hrequest]; rfl
  have r6 : getProp request "transportMode" = getProp o "transportMode" := by
    rw [hrequest]; rfl
  have r7 : getProp request "enableDebug" =
      (if truthy (getProp o "enableDebug") = true then getProp o "enableDebug"
        else JSVal.bool false) := by rw [hrequest]; rfl
  have r8 : getProp request "app" = getProp (literal props)
      (if truthy (getProp o "preferGoogleMaps") = true then "GOOGLE_MAPS" else "APPLE_MAPS") := by
    rw [hrequest]; rfl
  rw [hc]
  simp only [selectedApp, selectedMode, debugFlag, startValue, startTag, tableValue, hprops,
    r1, r2, r3, r4, r5, r6, r7, r8, hdbg]

/-- Line 69 keeps an options object that was passed. -/
theorem optionsObject_of_isObject (options : JSVal) (h : options.isObject = true) :
    optionsObject options = options := by
  cases options <;> simp_all [optionsObject, truthy, JSVal.isObject]

/-- The options object of `ln.v3.navigate` after a call that reaches the bridge:
the writes of lines 75-77, 82 or 84, and 88, 90-91 or 93, in order. -/
theorem navigate_options (env : Env) (destination options : JSVal)
    (hd : truthy destination = true) (hobj : options.isObject = true)
    (hr : defaultsReadable env options = true) :
    (ln.v3.navigate env destination options).options =
      setProp
        (if truthy (getProp options "start") = true ∧ typeof env.start = "object" then
          setProp
            (setProp (setProp (setProp (setProp options "app" (selectedApp env options))
              "transportMode" (selectedMode env options)) "enableDebug" (debugFlag options))
              "destType" (.str (destinationTag destination)))
            "start" (joinPair (getProp options "start"))
        else
          setProp (setProp (setProp (setProp options "app" (selectedApp env options))
            "transportMode" (selectedMode env options)) "enableDebug" (debugFlag options))
            "destType" (.str (destinationTag destination)))
        "startType" (.str (startTag env options)) := by
  have ho := optionsObject_of_isObject options hobj
  simp only [defaultsReadable, Bool.and_eq_true, Bool.or_eq_true] at hr
  obtain ⟨ha, hm⟩ := hr
  have hA : (if truthy (getProp options "app") = true then Except.ok (getProp options "app")
      else readTable env.APP "APPLE_MAPS") = Except.ok (selectedApp env options) := by
    unfold selectedApp
    by_cases h : truthy (getProp options "app") = true
    · simp [h]
    · simp [h] at ha
      obtain ⟨props, hp⟩ := Option.isSome_iff_exists.mp ha
      simp [h, readTable, tableValue, hp]
  have hM : (if truthy (getProp options "transportMode") = true then
        Except.ok (getProp options "transportMode")
      else readTable env.TRANSPORT_MODE "DRIVING") = Except.ok (selectedMode env options) := by
    unfold selectedMode
    by_cases h : truthy (getProp options "transportMode") = true
    · simp [h]
    · simp [h] at hm
      obtain ⟨props, hp⟩ := Option.isSome_iff_exists.mp hm
      simp [h, readTable, tableValue, hp]
  unfold ln.v3.navigate
  simp only [ho, hd, Bool.not_true, Bool.false_eq_true, if_false, hA,
    getProp_setProp_ne _ "app" "transportMode" _ (by decide), hM]
  by_cases hobjd : typeof destination = "object" <;>
  by_cases hs : truthy (getProp options "start") = true <;>
  by_cases hg : typeof env.start = "object" <;>
  simp [hobjd, hs, hg, getProp_setProp_ne, getProp_setProp_same, isObject_setProp, hobj,
    destinationTag, joinPair, debugFlag, startTag]

/-- The options object of `ln.v2.navigate` after the call, whatever the call
did: lines 167 and 168 are its only writes. -/
theorem v2_navigate_options (env : Env)
    (destination start successCallback errorCallback options : JSVal)
    (hobj : options.isObject = true) :
    (ln.v2.navigate env destination start successCallback errorCallback options).options =
      setProp
        (setProp options "preferGoogleMaps"
          (if truthy (getProp options "preferGoogleMaps") = true then
            getProp options "preferGoogleMaps"
          else .bool false))
        "enableDebug" (debugFlag options) := by
  have ho := optionsObject_of_isObject options hobj
  unfold ln.v2.navigate
  simp only [ho, debugFlag, getProp_setProp_ne _ "preferGoogleMaps" "enableDebug" _ (by decide)]
  cases readTable env.APP
      (if truthy (getProp (setProp (setProp options "preferGoogleMaps"
          (if truthy (getProp options "preferGoogleMaps") = true then
            getProp options "preferGoogleMaps" else JSVal.bool false))
        "enableDebug"
          (if truthy (getProp options "enableDebug") = true then getProp options "enableDebug"
            else JSVal.bool false)) "preferGoogleMaps") = true
       then "GOOGLE_MAPS" else "APPLE_MAPS") <;> rfl

/-! ## Claims -/

/-- C1: `ln.v3.navigate` called with a falsy destination (`undefined`, `null`,
the empty string, and likewise `false`, `0`, `NaN`) throws the error of line 72
and makes no bridge call, whatever the options and the environment. -/
theorem C1_v3_navigate_rejects_missing_destination (env : Env) (destination options : JSVal)
    (hd : truthy destination = false) :
    (ln.v3.navigate env destination options).thrown = some (.error destinationRequired) ∧
    (ln.v3.navigate env destination options).calls = [] := by
  simp [ln.v3.navigate, hd]

/-- C1 at the three values the claim names, with no options and with an
options object. -/
theorem C1_v3_navigate_rejects_missing_destination_witness :
    (truthy .undefined = false ∧
      (ln.v3.navigate moduleEnv .undefined .undefined).thrown =
        some (.error destinationRequired) ∧
      (ln.v3.navigate moduleEnv .undefined .undefined).calls = []) ∧
    (truthy .null = false ∧
      (ln.v3.navigate sampleEnv .null (literal [("app", .str "apple_maps")])).thrown =
        some (.error destinationRequired) ∧
      (ln.v3.navigate sampleEnv .null (literal [("app", .str "apple_maps")])).calls = []) ∧
    (truthy (.str "") = false ∧
      (ln.v3.navigate sampleEnv (.str "") (literal [])).thrown =
        some (.error destinationRequired) ∧
      (ln.v3.navigate sampleEnv (.str "") (literal [])).calls = []) :=
  ⟨⟨rfl, C1_v3_navigate_rejects_missing_destination moduleEnv .undefined .undefined rfl⟩,
   ⟨rfl, C1_v3_navigate_rejects_missing_destination sampleEnv .null
      (literal [("app", .str "apple_maps")]) rfl⟩,
   ⟨rfl, C1_v3_navigate_rejects_missing_destination sampleEnv (.str "") (literal []) rfl⟩⟩

/-- C2 (the code at the failing input): the legacy call with no destination
throws, but only after line 170 has called the bridge: one 'navigate' call with
a seven-element list is on record when the error is raised.  The same holds
through the public `ln.navigate` with fewer than two arguments, and in the
module as written (where the throw is the TypeError of line 182). -/
theorem C2_v2_navigate_dispatches_before_rejecting :
    ((ln.v2.navigate sampleEnv .undefined .undefined .undefined .undefined .undefined).thrown =
        some (.error destinationRequired) ∧
      (ln.v2.navigate sampleEnv .undefined .undefined .undefined .undefined .undefined).calls =
        [exec .undefined .undefined "navigate"
          [.undefined, .undefined, .undefined, .undefined, .undefined, .undefined,
           .bool false]]) ∧
    ((ln.navigate sampleEnv [.str ""]).thrown = some (.error destinationRequired) ∧
      (ln.navigate sampleEnv [.str ""]).calls =
        [exec .undefined .undefined "navigate"
          [.str "", .undefined, .undefined, .undefined, .undefined, .undefined,
           .bool false]]) ∧
    ((ln.v2.navigate moduleEnv .null .undefined .undefined .undefined .undefined).thrown =
        some .typeError ∧
      (ln.v2.navigate moduleEnv .null .undefined .undefined .undefined .undefined).calls =
        [exec .undefined .undefined "navigate"
          [.null, .undefined, .undefined, .undefined, .undefined, .undefined,
           .bool false]]) :=
  ⟨⟨rfl, rfl⟩, ⟨rfl, rfl⟩, ⟨rfl, rfl⟩⟩

/-- C3 (counterexample to the stated witness): for the destination
`[50.1, -4.0]` the bridge receives "50.1,-4", not "50.1,-4.0": the number
`-4.0` prints as "-4".  Shown with the tables supplied and options `{}`, and
in the module as written with options that set `app` and `transportMode`. -/
theorem C3_coords_witness_is_not_dispatched :
    ((ln.v3.navigate sampleEnv exampleCoords (literal [])).calls.map (fun c => c.args[0]?) =
        [some (.str "50.1,-4")] ∧
      ¬ (ln.v3.navigate sampleEnv exampleCoords (literal [])).calls.map (fun c => c.args[0]?) =
        [some (.str "50.1,-4.0")]) ∧
    ((ln.v3.navigate moduleEnv exampleCoords explicitOptions).calls.map (fun c => c.args[0]?) =
        [some (.str "50.1,-4")] ∧
      ¬ (ln.v3.navigate moduleEnv exampleCoords explicitOptions).calls.map
          (fun c => c.args[0]?) = [some (.str "50.1,-4.0")]) := by
  have h1 : (ln.v3.navigate sampleEnv exampleCoords (literal [])).calls.map
      (fun c => c.args[0]?) = [some (.str "50.1,-4")] := rfl
  have h2 : (ln.v3.navigate moduleEnv exampleCoords explicitOptions).calls.map
      (fun c => c.args[0]?) = [some (.str "50.1,-4")] := rfl
  refine ⟨⟨h1, ?_⟩, ⟨h2, ?_⟩⟩
  · rw [h1]; simp
  · rw [h2]; simp

/-- C3 (amended): given options (an object, or none) whose defaults can be
read, a coordinate-pair destination `[lat, lon]` is dispatched as the string
made of lat as JavaScript prints it, a comma, and lon as JavaScript prints it,
with destination type tag "coords"; a non-empty string destination is
dispatched unchanged with tag "name".  For `[50.1, -4.0]` the string is
"50.1,-4". -/
theorem C3_v3_navigate_classifies_destination (env : Env) (options : JSVal)
    (ho : isOptions options = true) (hr : defaultsReadable env options = true) :
    (∀ lat lon : JSNum,
      (ln.v3.navigate env (arrayOf [.num lat, .num lon]) options).thrown = none ∧
      ∃ c, (ln.v3.navigate env (arrayOf [.num lat, .num lon]) options).calls = [c] ∧
        c.action = "navigate" ∧
        c.args[0]? = some (.str (numberToString lat ++ "," ++ numberToString lon)) ∧
        c.args[1]? = some (.str "coords")) ∧
    (∀ name : String, name ≠ "" →
      (ln.v3.navigate env (.str name) options).thrown = none ∧
      ∃ c, (ln.v3.navigate env (.str name) options).calls = [c] ∧
        c.action = "navigate" ∧
        c.args[0]? = some (.str name) ∧
        c.args[1]? = some (.str "name")) ∧
    numberToString (.finite false 501 2) ++ "," ++ numberToString (.finite true 4 1) =
      "50.1,-4" := by
  refine ⟨fun lat lon => ?_, fun name hn => ?_, by decide⟩
  · obtain ⟨ht, h⟩ := navigate_dispatch env (arrayOf [.num lat, .num lon]) options rfl ho hr
    refine ⟨ht, _, h, rfl, ?_, rfl⟩
    simp [exec, destinationValue_pair, toStr]
  · have hs : truthy (.str name) = true := by simp [truthy, hn]
    obtain ⟨ht, h⟩ := navigate_dispatch env (.str name) options hs ho hr
    exact ⟨ht, _, h, rfl, rfl, rfl⟩

/-- C3 (amended) at `[50.1, -4.0]` and at "London", with options `{}`. -/
theorem C3_v3_navigate_classifies_destination_witness :
    isOptions (literal []) = true ∧ defaultsReadable sampleEnv (literal []) = true ∧
    ((ln.v3.navigate sampleEnv exampleCoords (literal [])).thrown = none ∧
      ∃ c, (ln.v3.navigate sampleEnv exampleCoords (literal [])).calls = [c] ∧
        c.action = "navigate" ∧
        c.args[0]? = some (.str "50.1,-4") ∧ c.args[1]? = some (.str "coords")) ∧
    ((ln.v3.navigate sampleEnv (.str "London") (literal [])).thrown = none ∧
      ∃ c, (ln.v3.navigate sampleEnv (.str "London") (literal [])).calls = [c] ∧
        c.action = "navigate" ∧
        c.args[0]? = some (.str "London") ∧ c.args[1]? = some (.str "name")) :=
  ⟨rfl, rfl,
   (C3_v3_navigate_classifies_destination sampleEnv (literal []) rfl rfl).1
     (.finite false 501 2) (.finite true 4 1),
   (C3_v3_navigate_classifies_destination sampleEnv (literal []) rfl rfl).2.1
     "London" (by decide)⟩

/-- C4 (the code at the failing input): a coordinate-pair start is not
serialised.  Line 89 tests `typeof(start)`, the free identifier, not
`options.start`, so with start `[50.1, -4.0]` the bridge receives the array
itself as start value, with start type tag "name". -/
theorem C4_coords_start_is_not_serialised :
    ((ln.v3.navigate moduleEnv (.str "London") coordsStartOptions).calls.map
        (fun c => (c.args[3]?, c.args[4]?)) =
      [(some exampleCoords, some (.str "name"))]) ∧
    ((ln.v3.navigate sampleEnv (.str "London") (literal [("start", exampleCoords)])).calls.map
        (fun c => (c.args[3]?, c.args[4]?)) =
      [(some exampleCoords, some (.str "name"))]) ∧
    joinPair exampleCoords = .str "50.1,-4" :=
  ⟨rfl, rfl, rfl⟩

/-- C5: for a non-empty destination and options (an object, or none) that have
no start, `ln.v3.navigate` returns having dispatched one 'navigate' call whose
start type tag is "none" and whose start value is the unset `options.start`
itself (`undefined` when the property or the options are absent). -/
theorem C5_v3_navigate_without_start (env : Env) (destination options : JSVal)
    (hd : truthy destination = true) (ho : isOptions options = true)
    (hr : defaultsReadable env options = true)
    (hs : truthy (getProp options "start") = false) :
    (ln.v3.navigate env destination options).thrown = none ∧
    ∃ c, (ln.v3.navigate env destination options).calls = [c] ∧
      c.action = "navigate" ∧
      c.args[3]? = some (getProp options "start") ∧
      c.args[4]? = some (.str "none") := by
  obtain ⟨ht, hc⟩ := navigate_dispatch env destination options hd ho hr
  refine ⟨ht, _, hc, rfl, ?_, ?_⟩
  · simp [exec, startValue, hs]
  · simp [exec, startTag, hs]

/-- C5 at `navigate("London", {})` and at `navigate("London")` with the tables
supplied, and in the module as written at options that set `app` and
`transportMode`: the start value dispatched is `undefined`. -/
theorem C5_v3_navigate_without_start_witness :
    (truthy (.str "London") = true ∧ isOptions (literal []) = true ∧
      defaultsReadable sampleEnv (literal []) = true ∧
      truthy (getProp (literal []) "start") = false ∧
      (ln.v3.navigate sampleEnv (.str "London") (literal [])).thrown = none ∧
      ∃ c, (ln.v3.navigate sampleEnv (.str "London") (literal [])).calls = [c] ∧
        c.action = "navigate" ∧
        c.args[3]? = some .undefined ∧ c.args[4]? = some (.str "none")) ∧
    (isOptions .undefined = true ∧ defaultsReadable sampleEnv .undefined = true ∧
      (ln.v3.navigate sampleEnv (.str "London") .undefined).thrown = none ∧
      ∃ c, (ln.v3.navigate sampleEnv (.str "London") .undefined).calls = [c] ∧
        c.action = "navigate" ∧
        c.args[3]? = some .undefined ∧ c.args[4]? = some (.str "none")) ∧
    (isOptions explicitOptions = true ∧ defaultsReadable moduleEnv explicitOptions = true ∧
      (ln.v3.navigate moduleEnv exampleCoords explicitOptions).thrown = none ∧
      ∃ c, (ln.v3.navigate moduleEnv exampleCoords explicitOptions).calls = [c] ∧
        c.action = "navigate" ∧
        c.args[3]? = some .undefined ∧ c.args[4]? = some (.str "none")) :=
  ⟨⟨rfl, rfl, rfl, rfl,
    C5_v3_navigate_without_start sampleEnv (.str "London") (literal []) rfl rfl rfl rfl⟩,
   ⟨rfl, rfl,
    C5_v3_navigate_without_start sampleEnv (.str "London") .undefined rfl rfl rfl rfl⟩,
   ⟨rfl, rfl,
    C5_v3_navigate_without_start moduleEnv exampleCoords explicitOptions rfl rfl rfl rfl⟩⟩

/-- C6: for a non-empty destination and options (an object, or none) whose
defaults can be read, `ln.v3.navigate` returns having made exactly one bridge
call: service 'LaunchNavigator', action 'navigate', callbacks
`options.successCallback` and `options.errorCallback`, and the nine arguments
destination value, destination type tag, `options.destinationName`, start
value, start type tag, `options.startName`, selected app, transport mode,
debug flag, in this order. -/
theorem C6_v3_navigate_single_dispatch (env : Env) (destination options : JSVal)
    (hd : truthy destination = true) (ho : isOptions options = true)
    (hr : defaultsReadable env options = true) :
    (ln.v3.navigate env destination options).thrown = none ∧
    (ln.v3.navigate env destination options).calls =
      [{ successCallback := getProp options "successCallback"
         errorCallback := getProp options "errorCallback"
         service := "LaunchNavigator"
         action := "navigate"
         args := [destinationValue destination,
                  .str (destinationTag destination),
                  getProp options "destinationName",
                  startValue env options,
                  .str (startTag env options),
                  getProp options "startName",
                  selectedApp env options,
                  selectedMode env options,
                  debugFlag options] }] ∧
    ((ln.v3.navigate env destination options).calls.map fun c => c.args.length) = [9] := by
  obtain ⟨ht, hc⟩ := navigate_dispatch env destination options hd ho hr
  refine ⟨ht, ?_, ?_⟩
  · rw [hc]; rfl
  · rw [hc]; rfl

/-- C6 at a call that sets every option, in the module as written, and at
`navigate("London")` with the tables supplied. -/
theorem C6_v3_navigate_single_dispatch_witness :
    (truthy (.str "London") = true ∧ isOptions fullOptions = true ∧
      defaultsReadable moduleEnv fullOptions = true ∧
      (ln.v3.navigate moduleEnv (.str "London") fullOptions).thrown = none ∧
      (ln.v3.navigate moduleEnv (.str "London") fullOptions).calls =
        [{ successCallback := onSuccess
           errorCallback := onError
           service := "LaunchNavigator"
           action := "navigate"
           args := [.str "London", .str "name", .str "Bob", .str "Paris", .str "name",
                    .str "Home", .str "google_maps", .str "walking", .bool true] }] ∧
      ((ln.v3.navigate moduleEnv (.str "London") fullOptions).calls.map
        fun c => c.args.length) = [9]) ∧
    (isOptions .undefined = true ∧ defaultsReadable sampleEnv .undefined = true ∧
      (ln.v3.navigate sampleEnv (.str "London") .undefined).thrown = none ∧
      (ln.v3.navigate sampleEnv (.str "London") .undefined).calls =
        [{ successCallback := .undefined
           errorCallback := .undefined
           service := "LaunchNavigator"
           action := "navigate"
           args := [.str "London", .str "name", .undefined, .undefined, .str "none",
                    .undefined, .str "apple_maps", .str "driving", .bool false] }] ∧
      ((ln.v3.navigate sampleEnv (.str "London") .undefined).calls.map
        fun c => c.args.length) = [9]) :=
  ⟨⟨rfl, rfl, rfl,
    C6_v3_navigate_single_dispatch moduleEnv (.str "London") fullOptions rfl rfl rfl⟩,
   ⟨rfl, rfl,
    C6_v3_navigate_single_dispatch sampleEnv (.str "London") .undefined rfl rfl rfl⟩⟩

/-- C7: for a non-empty destination and options (an object, or none) whose
defaults can be read, with the table constant `DRIVING` being the documented
"driving", the bridge call carries as selected app `options.app` when set and
the table constant `APPLE_MAPS` otherwise, as transport mode
`options.transportMode` when set and "driving" otherwise, and as debug flag
`options.enableDebug` when set and `false` otherwise. -/
theorem C7_v3_navigate_fills_defaults (env : Env) (destination options : JSVal)
    (hd : truthy destination = true) (ho : isOptions options = true)
    (hr : defaultsReadable env options = true)
    (hdriving : tableValue env.TRANSPORT_MODE "DRIVING" = .str "driving") :
    (ln.v3.navigate env destination options).thrown = none ∧
    ∃ c, (ln.v3.navigate env destination options).calls = [c] ∧
      c.action = "navigate" ∧
      c.args[6]? = some (if truthy (getProp options "app") = true then getProp options "app"
        else tableValue env.APP "APPLE_MAPS") ∧
      c.args[7]? = some (if truthy (getProp options "transportMode") = true then
          getProp options "transportMode"
        else .str "driving") ∧
      c.args[8]? = some (if truthy (getProp options "enableDebug") = true then
          getProp options "enableDebug"
        else .bool false) := by
  obtain ⟨ht, hc⟩ := navigate_dispatch env destination options hd ho hr
  refine ⟨ht, _, hc, rfl, ?_, ?_, ?_⟩
  · simp [exec, selectedApp]
  · simp [exec, selectedMode, hdriving]
  · simp [exec, debugFlag]

/-- C7 at `navigate("London", {})` (every default filled) and at a call that
sets all three options. -/
theorem C7_v3_navigate_fills_defaults_witness :
    (truthy (.str "London") = true ∧ isOptions (literal []) = true ∧
      defaultsReadable sampleEnv (literal []) = true ∧
      tableValue sampleEnv.TRANSPORT_MODE "DRIVING" = .str "driving" ∧
      (ln.v3.navigate sampleEnv (.str "London") (literal [])).thrown = none ∧
      ∃ c, (ln.v3.navigate sampleEnv (.str "London") (literal [])).calls = [c] ∧
        c.action = "navigate" ∧
        c.args[6]? = some (.str "apple_maps") ∧
        c.args[7]? = some (.str "driving") ∧
        c.args[8]? = some (.bool false)) ∧
    (isOptions fullOptions = true ∧ defaultsReadable sampleEnv fullOptions = true ∧
      (ln.v3.navigate sampleEnv (.str "London") fullOptions).thrown = none ∧
      ∃ c, (ln.v3.navigate sampleEnv (.str "London") fullOptions).calls = [c] ∧
        c.action = "navigate" ∧
        c.args[6]? = some (.str "google_maps") ∧
        c.args[7]? = some (.str "walking") ∧
        c.args[8]? = some (.bool true)) :=
  ⟨⟨rfl, rfl, rfl, rfl,
    C7_v3_navigate_fills_defaults sampleEnv (.str "London") (literal []) rfl rfl rfl rfl⟩,
   ⟨rfl, rfl,
    C7_v3_navigate_fills_defaults sampleEnv (.str "London") fullOptions rfl rfl rfl rfl⟩⟩

/-- C8 (the code at the failing input): the module never assigns `ln.v3.APP`
or `ln.v3.TRANSPORT_MODE` (both read as `undefined` in `moduleEnv`), so a call that
relies on a default throws a TypeError at line 75 or 76 and does not reach the
bridge: `navigate("London", {})`, `navigate("London")`, `navigate([50.1, -4.0], {})`,
and `navigate("London", {app: "apple_maps"})`. -/
theorem C8_module_defines_no_tables :
    moduleEnv.APP = none ∧ moduleEnv.TRANSPORT_MODE = none ∧
    ((ln.v3.navigate moduleEnv (.str "London") (literal [])).thrown = some .typeError ∧
      (ln.v3.navigate moduleEnv (.str "London") (literal [])).calls = []) ∧
    ((ln.v3.navigate moduleEnv (.str "London") .undefined).thrown = some .typeError ∧
      (ln.v3.navigate moduleEnv (.str "London") .undefined).calls = []) ∧
    ((ln.v3.navigate moduleEnv exampleCoords (literal [])).thrown = some .typeError ∧
      (ln.v3.navigate moduleEnv exampleCoords (literal [])).calls = []) ∧
    ((ln.v3.navigate moduleEnv (.str "London")
        (literal [("app", .str "apple_maps")])).thrown = some .typeError ∧
      (ln.v3.navigate moduleEnv (.str "London")
        (literal [("app", .str "apple_maps")])).calls = []) :=
  ⟨rfl, rfl, ⟨rfl, rfl⟩, ⟨rfl, rfl⟩, ⟨rfl, rfl⟩, ⟨rfl, rfl⟩⟩

/-- C9 (the code at the failing input): with an app table defined,
`isAppAvailable("toString", onSuccess, onError)` does not throw: the guard of
line 117 reads `ln.v3.APP["toString"]`, finds the function every object
inherits, and the bridge is called with "toString".  The same happens for
"__proto__" and "constructor": all three are inherited names, neither property
names nor constant values of the table.  The property name "APPLE_MAPS", which
is no constant value of the table, gets through as well.  A missing identifier
and "not-a-real-app" are rejected, as are all identifiers when the table is
missing. -/
theorem C9_isAppAvailable_accepts_inherited_name :
    sampleEnv.APP =
      some [("APPLE_MAPS", .str "apple_maps"), ("GOOGLE_MAPS", .str "google_maps")] ∧
    ln.v3.isAppAvailable sampleEnv (.str "toString") onSuccess onError =
      { calls := [exec onSuccess onError "isAppAvailable" [.str "toString"]],
        thrown := none } ∧
    ln.v3.isAppAvailable sampleEnv (.str "__proto__") onSuccess onError =
      { calls := [exec onSuccess onError "isAppAvailable" [.str "__proto__"]],
        thrown := none } ∧
    ln.v3.isAppAvailable sampleEnv (.str "constructor") onSuccess onError =
      { calls := [exec onSuccess onError "isAppAvailable" [.str "constructor"]],
        thrown := none } ∧
    ln.v3.isAppAvailable sampleEnv (.str "APPLE_MAPS") onSuccess onError =
      { calls := [exec onSuccess onError "isAppAvailable" [.str "APPLE_MAPS"]],
        thrown := none } ∧
    ln.v3.isAppAvailable sampleEnv (.str "not-a-real-app") onSuccess onError =
      { calls := [], thrown := some (.error ("not-a-real-app" ++ notSupported)) } ∧
    ln.v3.isAppAvailable sampleEnv .undefined onSuccess onError =
      { calls := [], thrown := some (.error ("undefined" ++ notSupported)) } ∧
    ln.v3.isAppAvailable moduleEnv (.str "toString") onSuccess onError =
      { calls := [], thrown := some .typeError } :=
  ⟨rfl, rfl, rfl, rfl, rfl, rfl, rfl, rfl⟩

/-- C10 (the code at the failing input): passing a constant value of the app
table does not get through.  Line 117 reads `ln.v3.APP[appName]`, a lookup by
property name: with the table `{APPLE_MAPS: "apple_maps", GOOGLE_MAPS:
"google_maps"}` the Google Maps identifier "google_maps" is rejected with the
error of line 117, and in the module as written (no table) the read throws a
TypeError; neither call reaches the bridge. -/
theorem C10_isAppAvailable_rejects_constant_value :
    tableValue sampleEnv.APP "GOOGLE_MAPS" = .str "google_maps" ∧
    ((ln.v3.isAppAvailable sampleEnv (.str "google_maps") onSuccess onError).thrown =
        some (.error ("google_maps" ++ notSupported)) ∧
      (ln.v3.isAppAvailable sampleEnv (.str "google_maps") onSuccess onError).calls = []) ∧
    ((ln.v3.isAppAvailable moduleEnv (.str "google_maps") onSuccess onError).thrown =
        some .typeError ∧
      (ln.v3.isAppAvailable moduleEnv (.str "google_maps") onSuccess onError).calls = []) :=
  ⟨rfl, ⟨rfl, rfl⟩, ⟨rfl, rfl⟩⟩

/-- C11 (the code at the failing input): the legacy call
`navigate("London", "Paris", onSuccess, onError, {preferGoogleMaps: true})`
makes two bridge calls, both with no callbacks and neither with the start
"Paris"; the current call `navigate("London", {app: GOOGLE_MAPS, start: "Paris",
successCallback: onSuccess, errorCallback: onError})` makes one, with the
callbacks and the start.  In the module as written the legacy call has made
one bridge call when it throws, the current call none. -/
theorem C11_legacy_dispatch_differs_from_current :
    tableValue sampleEnv.APP "GOOGLE_MAPS" = .str "google_maps" ∧
    (ln.v2.navigate sampleEnv (.str "London") (.str "Paris") onSuccess onError
        preferGoogleOptions).calls =
      [exec .undefined .undefined "navigate"
        [.str "London", .undefined, .undefined, .undefined, .undefined, .undefined,
         .bool false],
       exec .undefined .undefined "navigate"
        [.str "London", .str "name", .undefined, .undefined, .str "none", .undefined,
         .str "google_maps", .str "driving", .bool false]] ∧
    (ln.v3.navigate sampleEnv (.str "London") googleRequest).calls =
      [exec onSuccess onError "navigate"
        [.str "London", .str "name", .undefined, .str "Paris", .str "name", .undefined,
         .str "google_maps", .str "driving", .bool false]] ∧
    ((ln.v2.navigate moduleEnv (.str "London") (.str "Paris") onSuccess onError
        preferGoogleOptions).calls.length = 1 ∧
      (ln.v3.navigate moduleEnv (.str "London") googleRequest).calls.length = 0) :=
  ⟨rfl, rfl, rfl, rfl, rfl⟩

/-- C12 (the code at the failing input): `navigate("X", "Y", onSuccess, onError)`,
whose second argument is a string, is routed to `ln.v3.navigate` with "Y" as
its options, not to the legacy function: one nine-element dispatch instead of
the legacy function's two calls.  A callback as second argument is routed to
`ln.v3.navigate` as well.  The test of line 210 is `typeof` of a whole
disjunction, a non-empty string for every argument. -/
theorem C12_string_second_argument_routes_to_current :
    ln.navigate sampleEnv [.str "X", .str "Y", onSuccess, onError] =
      ln.v3.navigate sampleEnv (.str "X") (.str "Y") ∧
    (ln.navigate sampleEnv [.str "X", .str "Y", onSuccess, onError]).calls =
      [exec .undefined .undefined "navigate"
        [.str "X", .undefined, .undefined, .undefined, .undefined, .undefined,
         .undefined, .undefined, .undefined]] ∧
    (ln.v2.navigate sampleEnv (.str "X") (.str "Y") onSuccess onError .undefined).calls =
      [exec .undefined .undefined "navigate"
        [.str "X", .undefined, .undefined, .undefined, .undefined, .undefined,
         .bool false],
       exec .undefined .undefined "navigate"
        [.str "X", .str "name", .undefined, .undefined, .str "none", .undefined,
         .str "apple_maps", .str "driving", .bool false]] ∧
    ln.navigate sampleEnv [.str "X", onSuccess] =
      ln.v3.navigate sampleEnv (.str "X") onSuccess ∧
    shapeTest [.str "X", .str "Y", onSuccess, onError] = .str "string" ∧
    shapeTest [.str "X", onSuccess] = .str "string" ∧
    ((ln.navigate moduleEnv [.str "X", .str "Y", onSuccess, onError]).calls.length = 0 ∧
      (ln.v2.navigate moduleEnv (.str "X") (.str "Y") onSuccess onError
        .undefined).calls.length = 1) :=
  ⟨rfl, rfl, rfl, rfl, rfl, rfl, rfl, rfl⟩

/-- C13 (the code at the failing input): the legacy call
`navigate("London", undefined, onSuccess, onError)` registers neither
callback: both of its bridge calls carry `undefined` for the success and the
error callback.  The first call registers `options.successCallback` and
`options.errorCallback`, the delegated one nothing. -/
theorem C13_legacy_callbacks_are_not_registered :
    (ln.v2.navigate sampleEnv (.str "London") .undefined onSuccess onError .undefined).calls.map
        (fun c => (c.successCallback, c.errorCallback)) =
      [(.undefined, .undefined), (.undefined, .undefined)] ∧
    (ln.v2.navigate sampleEnv (.str "London") .undefined onSuccess onError
        (literal [("successCallback", onError), ("errorCallback", onSuccess)])).calls.map
        (fun c => (c.successCallback, c.errorCallback)) =
      [(onError, onSuccess), (.undefined, .undefined)] ∧
    (ln.v2.navigate moduleEnv (.str "London") .undefined onSuccess onError .undefined).calls.map
        (fun c => (c.successCallback, c.errorCallback)) =
      [(.undefined, .undefined)] :=
  ⟨rfl, rfl, rfl⟩

/-- C14 (the code at the failing input): the legacy call
`navigate("London", "Paris", onSuccess, onError, {transportMode: "walking"})`
does not forward its start: the nine-element dispatch has start value
`undefined` with start type tag "none" (its transport mode is "walking", as
given).  What is forwarded is `options.start`. -/
theorem C14_legacy_start_is_not_forwarded :
    (ln.v2.navigate sampleEnv (.str "London") (.str "Paris") onSuccess onError
        walkingOptions).calls.map (fun c => (c.args.length, c.args[3]?, c.args[4]?)) =
      [(7, some .undefined, some .undefined), (9, some .undefined, some (.str "none"))] ∧
    (ln.v2.navigate sampleEnv (.str "London") (.str "Paris") onSuccess onError
        walkingOptions).calls.map (fun c => c.args[7]?) =
      [none, some (.str "walking")] ∧
    (ln.v2.navigate sampleEnv (.str "London") (.str "Paris") onSuccess onError
        (literal [("start", .str "Rome")])).calls.map
        (fun c => (c.args.length, c.args[3]?, c.args[4]?)) =
      [(7, some (.str "Rome"), some .undefined), (9, some (.str "Rome"), some (.str "name"))] :=
  ⟨rfl, rfl, rfl⟩

/-- C15: for a non-empty destination, legacy options (an object, or none), an
app table that is defined and whose `GOOGLE_MAPS` constant is a non-empty
value, and a transport mode that is set or has its table, `ln.v2.navigate`
returns having made two bridge calls, its own seven-element one and the
nine-element 'navigate' dispatch of `ln.v3.navigate`; the selected-app element
of the latter is the table constant `GOOGLE_MAPS` when
`options.preferGoogleMaps` is truthy and the table constant `APPLE_MAPS`
otherwise. -/
theorem C15_legacy_selects_app (env : Env)
    (destination start successCallback errorCallback options : JSVal)
    (hd : truthy destination = true) (ho : isOptions options = true)
    (ha : env.APP.isSome = true)
    (hm : (truthy (getProp options "transportMode") || env.TRANSPORT_MODE.isSome) = true)
    (hg : truthy (tableValue env.APP "GOOGLE_MAPS") = true) :
    (ln.v2.navigate env destination start successCallback errorCallback options).thrown = none ∧
    ∃ direct c,
      (ln.v2.navigate env destination start successCallback errorCallback options).calls =
        [direct, c] ∧
      direct.args.length = 7 ∧
      c.action = "navigate" ∧ c.args.length = 9 ∧
      c.args[6]? = some (if truthy (getProp options "preferGoogleMaps") = true then
          tableValue env.APP "GOOGLE_MAPS"
        else tableValue env.APP "APPLE_MAPS") := by
  obtain ⟨ht, hc⟩ := v2_navigate_dispatch env destination start successCallback errorCallback
    options hd ho ha hm
  refine ⟨ht, _, _, hc, rfl, rfl, rfl, ?_⟩
  by_cases hp : truthy (getProp options "preferGoogleMaps") = true
  · simp [exec, legacyApp, hp, hg]
  · simp [exec, legacyApp, hp]

/-- C15 at `{preferGoogleMaps: true}`, at `{}`-like absent options and at
`{preferGoogleMaps: false}`. -/
theorem C15_legacy_selects_app_witness :
    (truthy (.str "London") = true ∧ isOptions preferGoogleOptions = true ∧
      sampleEnv.APP.isSome = true ∧
      (truthy (getProp preferGoogleOptions "transportMode") ||
        sampleEnv.TRANSPORT_MODE.isSome) = true ∧
      truthy (tableValue sampleEnv.APP "GOOGLE_MAPS") = true ∧
      (ln.v2.navigate sampleEnv (.str "London") .undefined onSuccess onError
        preferGoogleOptions).thrown = none ∧
      ∃ direct c,
        (ln.v2.navigate sampleEnv (.str "London") .undefined onSuccess onError
          preferGoogleOptions).calls = [direct, c] ∧
        direct.args.length = 7 ∧
        c.action = "navigate" ∧ c.args.length = 9 ∧
        c.args[6]? = some (.str "google_maps")) ∧
    ((ln.v2.navigate sampleEnv (.str "London") .undefined onSuccess onError
        .undefined).thrown = none ∧
      ∃ direct c,
        (ln.v2.navigate sampleEnv (.str "London") .undefined onSuccess onError
          .undefined).calls = [direct, c] ∧
        direct.args.length = 7 ∧
        c.action = "navigate" ∧ c.args.length = 9 ∧
        c.args[6]? = some (.str "apple_maps")) ∧
    ((ln.v2.navigate sampleEnv (.str "London") .undefined onSuccess onError
        (literal [("preferGoogleMaps", .bool false)])).thrown = none ∧
      ∃ direct c,
        (ln.v2.navigate sampleEnv (.str "London") .undefined onSuccess onError
          (literal [("preferGoogleMaps", .bool false)])).calls = [direct, c] ∧
        direct.args.length = 7 ∧
        c.action = "navigate" ∧ c.args.length = 9 ∧
        c.args[6]? = some (.str "apple_maps")) :=
  ⟨⟨rfl, rfl, rfl, rfl, rfl,
    C15_legacy_selects_app sampleEnv (.str "London") .undefined onSuccess onError
      preferGoogleOptions rfl rfl rfl rfl rfl⟩,
   C15_legacy_selects_app sampleEnv (.str "London") .undefined onSuccess onError
      .undefined rfl rfl rfl rfl rfl,
   C15_legacy_selects_app sampleEnv (.str "London") .undefined onSuccess onError
      (literal [("preferGoogleMaps", .bool false)]) rfl rfl rfl rfl rfl⟩

/-- C16 (the code at the failing input): one legacy call
`navigate("London", "Paris", onSuccess, onError)` causes two bridge
dispatches: the seven-element one the legacy function makes itself at line 170,
then the nine-element one of `ln.v3.navigate`.  In the module as written the
only dispatch is the legacy function's own. -/
theorem C16_legacy_dispatches_twice :
    (ln.v2.navigate sampleEnv (.str "London") (.str "Paris") onSuccess onError
        .undefined).calls =
      [exec .undefined .undefined "navigate"
        [.str "London", .undefined, .undefined, .undefined, .undefined, .undefined,
         .bool false],
       exec .undefined .undefined "navigate"
        [.str "London", .str "name", .undefined, .undefined, .str "none", .undefined,
         .str "apple_maps", .str "driving", .bool false]] ∧
    (ln.v2.navigate sampleEnv (.str "London") (.str "Paris") onSuccess onError
        .undefined).calls.length = 2 ∧
    (ln.v3.navigate sampleEnv (.str "London")
        (literal [("app", .str "apple_maps"), ("start", .undefined),
          ("transportMode", .undefined), ("enableDebug", .bool false)])).calls.length = 1 ∧
    ((ln.v2.navigate moduleEnv (.str "London") (.str "Paris") onSuccess onError
        .undefined).calls =
      [exec .undefined .undefined "navigate"
        [.str "London", .undefined, .undefined, .undefined, .undefined, .undefined,
         .bool false]] ∧
      (ln.v2.navigate moduleEnv (.str "London") (.str "Paris") onSuccess onError
        .undefined).thrown = some .typeError) :=
  ⟨rfl, rfl, rfl, rfl, rfl⟩

/-- C17: `ln.isGoogleMapsAvailable(cb)` is `ln.isAppAvailable` applied to the
table constant `GOOGLE_MAPS`, `cb` and `undefined`.  With the app table defined
the two outcomes are equal, and the outcome is either a throw with no bridge
call or the single call of action 'isAppAvailable' with success callback `cb`,
error callback `undefined` and the identifier as only argument.  With no table,
reading the constant throws a TypeError before any call, and so does
`ln.isAppAvailable` for every non-empty identifier. -/
theorem C17_isGoogleMapsAvailable_is_isAppAvailable (env : Env) (cb : JSVal) :
    (∀ props, env.APP = some props →
      ln.isGoogleMapsAvailable env cb =
        ln.isAppAvailable env (tableValue env.APP "GOOGLE_MAPS") cb .undefined) ∧
    (env.APP = none →
      ln.isGoogleMapsAvailable env cb = { calls := [], thrown := some .typeError } ∧
      ∀ appName, truthy appName = true →
        ln.isAppAvailable env appName cb .undefined =
          { calls := [], thrown := some .typeError }) ∧
    (((ln.isGoogleMapsAvailable env cb).calls = [] ∧
        (ln.isGoogleMapsAvailable env cb).thrown.isSome = true) ∨
      ((ln.isGoogleMapsAvailable env cb).calls =
          [{ successCallback := cb
             errorCallback := .undefined
             service := "LaunchNavigator"
             action := "isAppAvailable"
             args := [tableValue env.APP "GOOGLE_MAPS"] }] ∧
        (ln.isGoogleMapsAvailable env cb).thrown = none)) := by
  refine ⟨fun props h => ?_, fun h => ⟨?_, fun appName ha => ?_⟩, ?_⟩
  · simp [ln.isGoogleMapsAvailable, ln.v2.isGoogleMapsAvailable, ln.isAppAvailable, h,
      readTable, tableValue]
  · simp [ln.isGoogleMapsAvailable, ln.v2.isGoogleMapsAvailable, h, readTable]
  · simp [ln.isAppAvailable, ln.v3.isAppAvailable, h, readTable, ha]
  · cases h : env.APP with
    | none =>
      left
      simp [ln.isGoogleMapsAvailable, ln.v2.isGoogleMapsAvailable, h, readTable]
    | some props =>
      simp only [ln.isGoogleMapsAvailable, ln.v2.isGoogleMapsAvailable, h, readTable,
        tableValue, ln.v3.isAppAvailable]
      by_cases h1 : truthy (getProp (literal props) "GOOGLE_MAPS") = true
      · by_cases h2 : truthy (getProp (literal props)
            (toStr (getProp (literal props) "GOOGLE_MAPS"))) = true
        · right
          simp [h1, h2, exec]
        · left
          simp [h1, h2]
      · left
        simp [h1]

/-- C17 with the tables supplied (the identifier "google_maps" is no property
name of the table, so both calls throw the same error) and in the module as
written (both throw a TypeError), and with a table whose constant is its own
name (both make the same bridge call). -/
theorem C17_isGoogleMapsAvailable_is_isAppAvailable_witness :
    (ln.isGoogleMapsAvailable sampleEnv onSuccess =
        ln.isAppAvailable sampleEnv (.str "google_maps") onSuccess .undefined ∧
      ln.isGoogleMapsAvailable sampleEnv onSuccess =
        { calls := [], thrown := some (.error ("google_maps" ++ notSupported)) }) ∧
    (ln.isGoogleMapsAvailable moduleEnv onSuccess =
        { calls := [], thrown := some .typeError } ∧
      ln.isAppAvailable moduleEnv (.str "google_maps") onSuccess .undefined =
        { calls := [], thrown := some .typeError }) ∧
    ln.isGoogleMapsAvailable namedEnv onSuccess =
      { calls := [exec onSuccess .undefined "isAppAvailable" [.str "GOOGLE_MAPS"]],
        thrown := none } :=
  ⟨⟨(C17_isGoogleMapsAvailable_is_isAppAvailable sampleEnv onSuccess).1 _ rfl, rfl⟩,
   ⟨((C17_isGoogleMapsAvailable_is_isAppAvailable moduleEnv onSuccess).2.1 rfl).1,
    ((C17_isGoogleMapsAvailable_is_isAppAvailable moduleEnv onSuccess).2.1 rfl).2
      (.str "google_maps") rfl⟩,
   rfl⟩

/-- C18: the public `ln.navigate` routes on the number of arguments alone.
With two or more arguments, whatever the second one is, it is
`ln.v3.navigate` applied to the first two; with one argument or none it is
`ln.v2.navigate` applied to that list (the missing parameters `undefined`). -/
theorem C18_navigate_routes_on_argument_count (env : Env) :
    (∀ (first second : JSVal) (rest : List JSVal),
      ln.navigate env (first :: second :: rest) = ln.v3.navigate env first second) ∧
    (∀ first : JSVal,
      ln.navigate env [first] =
        ln.v2.navigate env first .undefined .undefined .undefined .undefined) ∧
    ln.navigate env [] =
      ln.v2.navigate env .undefined .undefined .undefined .undefined .undefined := by
  refine ⟨fun first second rest => ?_, fun first => ?_, ?_⟩
  · simp [ln.navigate, truthy_shapeTest, argument]
  · simp [ln.navigate, argument]
  · simp [ln.navigate, argument]

/-- C19: `ln.v3.navigate` writes into the options object it is given.  After a
call with a non-empty destination that reaches the bridge, that object has
`app`, `transportMode`, `enableDebug`, `destType` and `startType` equal to the
values dispatched; every property under another name than these five and
`start` reads as before, and so does `start` unless a global object named
`start` exists.  `ln.v2.navigate` leaves every property of its options object
as it was except `preferGoogleMaps` and `enableDebug`. -/
theorem C19_navigate_writes_into_options (env : Env) (destination options : JSVal)
    (hd : truthy destination = true) (hobj : options.isObject = true)
    (hr : defaultsReadable env options = true) :
    (∃ c, (ln.v3.navigate env destination options).calls = [c] ∧
      c.args[1]? = some (getProp (ln.v3.navigate env destination options).options "destType") ∧
      c.args[4]? = some (getProp (ln.v3.navigate env destination options).options "startType") ∧
      c.args[6]? = some (getProp (ln.v3.navigate env destination options).options "app") ∧
      c.args[7]? =
        some (getProp (ln.v3.navigate env destination options).options "transportMode") ∧
      c.args[8]? =
        some (getProp (ln.v3.navigate env destination options).options "enableDebug")) ∧
    (getProp (ln.v3.navigate env destination options).options "app" =
        selectedApp env options ∧
      getProp (ln.v3.navigate env destination options).options "transportMode" =
        selectedMode env options ∧
      getProp (ln.v3.navigate env destination options).options "enableDebug" =
        debugFlag options ∧
      getProp (ln.v3.navigate env destination options).options "destType" =
        .str (destinationTag destination) ∧
      getProp (ln.v3.navigate env destination options).options "startType" =
        .str (startTag env options)) ∧
    (∀ key, key ∉ ["app", "transportMode", "enableDebug", "destType", "startType", "start"] →
      getProp (ln.v3.navigate env destination options).options key = getProp options key) ∧
    (typeof env.start ≠ "object" →
      getProp (ln.v3.navigate env destination options).options "start" =
        getProp options "start") ∧
    (∀ start successCallback errorCallback key, key ∉ ["preferGoogleMaps", "enableDebug"] →
      getProp (ln.v2.navigate env destination start successCallback errorCallback
        options).options key = getProp options key) := by
  have hc := (navigate_dispatch env destination options hd
    (by simp [isOptions, hobj]) hr).2
  have hopt := navigate_options env destination options hd hobj hr
  have values : getProp (ln.v3.navigate env destination options).options "app" =
        selectedApp env options ∧
      getProp (ln.v3.navigate env destination options).options "transportMode" =
        selectedMode env options ∧
      getProp (ln.v3.navigate env destination options).options "enableDebug" =
        debugFlag options ∧
      getProp (ln.v3.navigate env destination options).options "destType" =
        .str (destinationTag destination) ∧
      getProp (ln.v3.navigate env destination options).options "startType" =
        .str (startTag env options) := by
    rw [hopt]
    by_cases hs : truthy (getProp options "start") = true ∧ typeof env.start = "object" <;>
    simp [hs, getProp_setProp_ne, getProp_setProp_same, isObject_setProp, hobj]
  obtain ⟨v1, v2, v3, v4, v5⟩ := values
  refine ⟨⟨_, hc, ?_, ?_, ?_, ?_, ?_⟩, ⟨v1, v2, v3, v4, v5⟩, fun key hk => ?_, fun hg => ?_,
    fun start successCallback errorCallback key hk => ?_⟩
  · rw [v4]; rfl
  · rw [v5]; rfl
  · rw [v1]; rfl
  · rw [v2]; rfl
  · rw [v3]; rfl
  · simp only [List.mem_cons, List.mem_singleton, List.not_mem_nil, or_false, not_or] at hk
    obtain ⟨k1, k2, k3, k4, k5, k6⟩ := hk
    rw [hopt]
    by_cases hs : truthy (getProp options "start") = true ∧ typeof env.start = "object" <;>
    simp [hs, getProp_setProp_ne _ _ _ _ k1, getProp_setProp_ne _ _ _ _ k2,
      getProp_setProp_ne _ _ _ _ k3, getProp_setProp_ne _ _ _ _ k4,
      getProp_setProp_ne _ _ _ _ k5, getProp_setProp_ne _ _ _ _ k6]
  · rw [hopt]
    simp [hg, getProp_setProp_ne]
  · simp only [List.mem_cons, List.mem_singleton, List.not_mem_nil, or_false, not_or] at hk
    obtain ⟨k1, k2⟩ := hk
    rw [v2_navigate_options env destination start successCallback errorCallback options hobj]
    simp [getProp_setProp_ne _ _ _ _ k1, getProp_setProp_ne _ _ _ _ k2]

/-- C19 in the module as written, at `navigate("London", {app: "apple_maps",
transportMode: "driving", start: "Paris", note: "keep"})`: the five properties
hold what was dispatched, `note` and `start` are as they were; the legacy
function leaves `note` alone as well. -/
theorem C19_navigate_writes_into_options_witness :
    truthy (.str "London") = true ∧ annotatedOptions.isObject = true ∧
    defaultsReadable moduleEnv annotatedOptions = true ∧
    (getProp (ln.v3.navigate moduleEnv (.str "London") annotatedOptions).options "app" =
        .str "apple_maps" ∧
      getProp (ln.v3.navigate moduleEnv (.str "London") annotatedOptions).options
        "transportMode" = .str "driving" ∧
      getProp (ln.v3.navigate moduleEnv (.str "London") annotatedOptions).options
        "enableDebug" = .bool false ∧
      getProp (ln.v3.navigate moduleEnv (.str "London") annotatedOptions).options "destType" =
        .str "name" ∧
      getProp (ln.v3.navigate moduleEnv (.str "London") annotatedOptions).options "startType" =
        .str "name") ∧
    getProp (ln.v3.navigate moduleEnv (.str "London") annotatedOptions).options "note" =
      .str "keep" ∧
    getProp (ln.v3.navigate moduleEnv (.str "London") annotatedOptions).options "start" =
      .str "Paris" ∧
    getProp (ln.v2.navigate moduleEnv (.str "London") .undefined onSuccess onError
      annotatedOptions).options "note" = .str "keep" := by
  have h := C19_navigate_writes_into_options moduleEnv (.str "London") annotatedOptions
    rfl rfl rfl
  exact ⟨rfl, rfl, rfl, h.2.1, h.2.2.1 "note" (by decide), h.2.2.2.1 (by decide),
    h.2.2.2.2 .undefined onSuccess onError "note" (by decide)⟩

end LaunchNavigator
